import Mathlib

/-!
Verification of the idle-monitor portal (src/idle-monitor.c).

A shallow embedding of the request-mediation and event-routing core: the
permission check `get_idle_monitor_allowed`, the GetIdleTime handler
`handle_get_idletime` with its thread function
`handle_get_idletime_in_thread_func`, the backend-completion handler
`get_idletime_done`, the watch-fired signal handler `watch_fired_cb` and the
service constructor `idle_monitor_create`.  Stateful C code becomes explicit
state passing: the permission store is threaded through the functions that
read or write it, asynchronous callbacks become pure functions from the
backend's result to the emitted response, and D-Bus signal emission becomes a
value describing the emitted signal (destination, path, interface, name,
payload).
-/

/-- Permission values of the permission store as consumed by
`get_idle_monitor_allowed`.  Modelled from the spec (the store itself,
permissions.h / permissions.c, is not part of the translated source): the
permission collaborator returns one of Yes, No, Unset. -/
inductive Permission where
  | unset
  | no
  | yes
  deriving DecidableEq, Repr

/-- `#define PERMISSION_TABLE "idle-monitor"` (idle-monitor.c line 34). -/
def PERMISSION_TABLE : String := "idle-monitor"

/-- `#define PERMISSION_ID "idle-monitor"` (idle-monitor.c line 35). -/
def PERMISSION_ID : String := "idle-monitor"

/-- The external permission store, keyed by application id, table name and
permission id.  Modelled from the spec: a durable key-value policy store
queried and updated synchronously. -/
def PermissionStore : Type := String → String → String → Permission

/-- `get_permission_sync (app_id, table, id)`: read the stored permission.
Modelled from the spec. -/
def get_permission_sync (store : PermissionStore)
    (app_id table id : String) : Permission :=
  store app_id table id

/-- `set_permission_sync (app_id, table, id, value)`: persist a permission.
Modelled from the spec. -/
def set_permission_sync (store : PermissionStore)
    (app_id table id : String) (value : Permission) : PermissionStore :=
  fun a t i => if a = app_id ∧ t = table ∧ i = id then value else store a t i

/-- `get_idle_monitor_allowed` (idle-monitor.c lines 60-78): `PERMISSION_NO`
denies; `PERMISSION_UNSET` persists `PERMISSION_YES` and allows; anything
else allows.  Returns the decision together with the (possibly updated)
permission store. -/
def get_idle_monitor_allowed (store : PermissionStore) (app_id : String) :
    Bool × PermissionStore :=
  let permission := get_permission_sync store app_id PERMISSION_TABLE PERMISSION_ID
  if permission = Permission.no then
    (false, store)
  else if permission = Permission.unset then
    (true, set_permission_sync store app_id PERMISSION_TABLE PERMISSION_ID
      Permission.yes)
  else
    (true, store)

/-- A `Request` object as used by idle-monitor.c: its object-path id
(`request->id`), the application id resolved from `request->app_info`, and
the `request->exported` flag. -/
structure Request where
  id : String
  app_id : String
  exported : Bool
  deriving DecidableEq, Repr

/-- The `Response` signal payload emitted by `xdp_request_emit_response`:
the response code and the results vardict (a list of key-value pairs). -/
structure Response where
  code : Nat
  results : List (String × Nat)
  deriving DecidableEq, Repr

/-- Outcome of `xdp_impl_idle_monitor_call_get_idletime_finish`: either the
backend returned a `guint` value, or the finish call reported an error
(including a malformed or absent backend reply). -/
inductive BackendResult where
  | ok (idletime : Nat)
  | err
  deriving DecidableEq, Repr

/-- The arguments of one `xdp_impl_idle_monitor_call_get_idletime`
invocation: the request handle (`request->id`) and the application id. -/
structure BackendCall where
  handle : String
  app_id : String
  deriving DecidableEq, Repr

/-- `get_idletime_done` (idle-monitor.c lines 89-113): `guint response = 0`;
if the finish call fails, `response = 2`, otherwise `response` holds the
backend's out value; then, only when `request->exported`, emit a Response
with that code and a freshly built (empty) vardict.  `none` models the
handler returning without emitting. -/
def get_idletime_done (request : Request) (result : BackendResult) :
    Option Response :=
  let response : Nat :=
    match result with
    | BackendResult.ok v => v
    | BackendResult.err => 2
  if request.exported then
    some { code := response, results := [] }
  else
    none

/-- How many Response signals an optional emission delivers. -/
def numResponses (o : Option Response) : Nat :=
  o.toList.length

/-- `handle_get_idletime_in_thread_func` (idle-monitor.c lines 115-138):
resolve the application id from the request, run the permission check, and
if it denies return without calling the backend; otherwise issue the
asynchronous backend call carrying `request->id` and the application id.
Returns the updated store and the backend call made, if any. -/
def handle_get_idletime_in_thread_func (store : PermissionStore)
    (request : Request) : PermissionStore × Option BackendCall :=
  let p := get_idle_monitor_allowed store request.app_id
  if p.1 then
    (p.2, some { handle := request.id, app_id := request.app_id })
  else
    (p.2, none)

/-- The complete asynchronous path of one GetIdleTime call: the thread
function runs the permission check; when it issued a backend call, the
completion handler `get_idletime_done` runs on the backend's result for that
call.  Records the final store, the backend call made (if any) and the
Response emitted (if any). -/
structure AsyncOutcome where
  store : PermissionStore
  backend_call : Option BackendCall
  response : Option Response

/-- Composition of `handle_get_idletime_in_thread_func` with
`get_idletime_done`: when the thread function makes no backend call, no
completion handler ever runs and no Response is emitted. -/
def async_get_idletime (store : PermissionStore) (request : Request)
    (backend : BackendCall → BackendResult) : AsyncOutcome :=
  match handle_get_idletime_in_thread_func store request with
  | (store2, none) => { store := store2, backend_call := none, response := none }
  | (store2, some call) =>
      { store := store2, backend_call := some call,
        response := get_idletime_done request (backend call) }

/-- `handle_get_idletime` (idle-monitor.c lines 140-158): create a task
holding the request, schedule the thread function, and synchronously
complete the method call with `request->id`.  The first component is the
token passed to `xdp_idle_monitor_complete_get_idletime`; the second is the
deferred work later run on the worker thread. -/
def handle_get_idletime (store : PermissionStore) (request : Request)
    (backend : BackendCall → BackendResult) :
    String × (Unit → AsyncOutcome) :=
  (request.id, fun _ => async_get_idletime store request backend)

/-- One entry of the watch-fired `state` vardict: either an unsigned 32-bit
value under a key (the type `g_variant_lookup (state, key, "u", ...)`
accepts), or a value of some other variant type under a key. -/
inductive VariantEntry where
  | u (key : String) (val : Nat)
  | other (key : String)
  deriving DecidableEq, Repr

/-- `g_variant_lookup (state, key, "u", &out)`: find the first entry for
`key`; succeed with its value when it is an unsigned 32-bit entry, fail when
the key is absent or its value has another type. -/
def lookup_u (state : List VariantEntry) (key : String) : Option Nat :=
  match state with
  | [] => none
  | VariantEntry.u k v :: rest =>
      if k = key then some v else lookup_u rest key
  | VariantEntry.other k :: rest =>
      if k = key then none else lookup_u rest key

/-- One `g_dbus_connection_emit_signal` call: destination bus name (`none`
is the NULL destination, a bus-wide broadcast), object path, interface
name, signal name and the `(u)` payload. -/
structure SignalEmission where
  destination : Option String
  object_path : String
  iface : String
  signal_name : String
  watch_id : Nat
  deriving DecidableEq, Repr

/-- `watch_fired_cb` (idle-monitor.c lines 177-202): `watch_id` starts at 0
and is overwritten only when `g_variant_lookup (state, "session-state",
"u", &watch_id)` succeeds; `is_listening` is hardcoded TRUE; the signal is
emitted with NULL destination on the portal path and interface. -/
def watch_fired_cb (session_id : String) (state : List VariantEntry) :
    Option SignalEmission :=
  let watch_id := (lookup_u state "session-state").getD 0
  let is_listening := true
  if is_listening then
    some { destination := none,
           object_path := "/org/freedesktop/portal/desktop",
           iface := "org.freedesktop.portal.IdleMonitor",
           signal_name := "WatchFired",
           watch_id := watch_id }
  else
    none

/-- `G_MAXINT`, the largest 32-bit signed integer. -/
def G_MAXINT : Int := 2147483647

/-- The service state `idle_monitor_create` builds on success: the default
timeout set on the backend proxy, the watch-fired signal connection and the
interface version set by `idle_monitor_init`. -/
structure IdleMonitorService where
  impl_default_timeout : Int
  watch_fired_connected : Bool
  version : Nat
  deriving DecidableEq, Repr

/-- `idle_monitor_create` (idle-monitor.c lines 204-228): if the synchronous
proxy construction fails, warn and return NULL; otherwise set the proxy's
default timeout to `G_MAXINT`, build the skeleton (version 3) and connect
`watch_fired_cb` to the proxy's watch-fired signal. -/
def idle_monitor_create (proxy_created : Bool) : Option IdleMonitorService :=
  if proxy_created then
    some { impl_default_timeout := G_MAXINT,
           watch_fired_connected := true,
           version := 3 }
  else
    none

/-- A permission store with every permission unset. -/
def storeAllUnset : PermissionStore := fun _ _ _ => Permission.unset

/-- A permission store with every permission denied. -/
def storeAllNo : PermissionStore := fun _ _ _ => Permission.no

/-- A concrete exported request. -/
def reqA : Request :=
  { id := "/org/freedesktop/portal/desktop/request/1_0/t",
    app_id := "com.example.A",
    exported := true }

/-- A concrete request that was never exported. -/
def reqUnexported : Request :=
  { id := "/org/freedesktop/portal/desktop/request/1_1/t",
    app_id := "com.example.B",
    exported := false }

/-- A backend that always answers 4200 milliseconds of idle time. -/
def backendConst4200 : BackendCall → BackendResult :=
  fun _ => BackendResult.ok 4200

/-- C1: the claim says a WatchFired event for watch id W is delivered only
to the connection of the client that owns W and never broadcast.  The code
behaves otherwise: for a fired watch (here watch id 5 owned by one client
among possibly many), `watch_fired_cb` emits the signal with NULL
destination — a bus-wide broadcast delivered to every client — exactly what
the source's FIXME comments ("Only fire if the client has created this
watch", "Only emit for the watching client") mark as missing.  This theorem
evaluates the code at the failing input. -/
theorem watch_fired_broadcasts_to_all :
    watch_fired_cb "session1" [VariantEntry.u "session-state" 5] =
      some { destination := none,
             object_path := "/org/freedesktop/portal/desktop",
             iface := "org.freedesktop.portal.IdleMonitor",
             signal_name := "WatchFired",
             watch_id := 5 } := rfl

/-- C2: for every Request, the backend-completion handler emits at most one
Response, and it emits one exactly when the Request is exported — in
particular it emits nothing when the request is not exported. -/
theorem get_idletime_done_single_response_iff_exported :
    ∀ (request : Request) (result : BackendResult),
      numResponses (get_idletime_done request result) ≤ 1 ∧
      (get_idletime_done request result).isSome = request.exported := by
  intro request result
  unfold numResponses get_idletime_done
  cases h : request.exported <;> simp [h]

/-- C3: the permission check denies exactly on a stored `No` (leaving the
store unchanged), allows on `Yes` (store unchanged), and on `Unset` allows
while persisting `Yes`, so that the stored permission afterwards reads
`Yes` and a second check behaves exactly like one against an explicit
prior `Yes`: it allows and leaves the upgraded store unchanged. -/
theorem get_idle_monitor_allowed_policy :
    ∀ (store : PermissionStore) (app_id : String),
      (get_permission_sync store app_id PERMISSION_TABLE PERMISSION_ID =
          Permission.no →
        get_idle_monitor_allowed store app_id = (false, store)) ∧
      (get_permission_sync store app_id PERMISSION_TABLE PERMISSION_ID =
          Permission.yes →
        get_idle_monitor_allowed store app_id = (true, store)) ∧
      (get_permission_sync store app_id PERMISSION_TABLE PERMISSION_ID =
          Permission.unset →
        (get_idle_monitor_allowed store app_id).1 = true ∧
        get_permission_sync (get_idle_monitor_allowed store app_id).2 app_id
          PERMISSION_TABLE PERMISSION_ID = Permission.yes ∧
        get_idle_monitor_allowed (get_idle_monitor_allowed store app_id).2
          app_id = (true, (get_idle_monitor_allowed store app_id).2)) := by
  intro store app_id
  refine ⟨fun h => ?_, fun h => ?_, fun h => ?_⟩ <;>
    simp only [get_permission_sync] at h
  · simp [get_idle_monitor_allowed, get_permission_sync, h]
  · simp [get_idle_monitor_allowed, get_permission_sync, h]
  · refine ⟨?_, ?_, ?_⟩ <;>
      simp [get_idle_monitor_allowed, get_permission_sync,
        set_permission_sync, h]

/-- C3 witness: starting from a store where everything is unset, one call
for `com.example.A` allows, the stored permission becomes `Yes`, and a
second call behaves like a call against an explicit `Yes`. -/
theorem get_idle_monitor_allowed_policy_witness :
    (get_idle_monitor_allowed storeAllUnset "com.example.A").1 = true ∧
    get_permission_sync (get_idle_monitor_allowed storeAllUnset
      "com.example.A").2 "com.example.A" PERMISSION_TABLE PERMISSION_ID =
      Permission.yes ∧
    get_idle_monitor_allowed (get_idle_monitor_allowed storeAllUnset
      "com.example.A").2 "com.example.A" =
      (true, (get_idle_monitor_allowed storeAllUnset "com.example.A").2) :=
  (get_idle_monitor_allowed_policy storeAllUnset "com.example.A").2.2 rfl

/-- C4: when the caller's stored permission is `No`, the asynchronous path
returns without issuing any backend GetIdleTime call and without emitting
any Response for the Request; the store is left unchanged. -/
theorem denied_call_never_reaches_backend :
    ∀ (store : PermissionStore) (request : Request)
      (backend : BackendCall → BackendResult),
      get_permission_sync store request.app_id PERMISSION_TABLE
        PERMISSION_ID = Permission.no →
      async_get_idletime store request backend =
        { store := store, backend_call := none, response := none } := by
  intro store request backend h
  simp only [get_permission_sync] at h
  simp [async_get_idletime, handle_get_idletime_in_thread_func,
    get_idle_monitor_allowed, get_permission_sync, h]

/-- C4 witness: with every permission denied, `com.example.A`'s call makes
no backend call and produces no Response. -/
theorem denied_call_never_reaches_backend_witness :
    async_get_idletime storeAllNo reqA backendConst4200 =
      { store := storeAllNo, backend_call := none, response := none } :=
  denied_call_never_reaches_backend storeAllNo reqA backendConst4200 rfl

/-- C5: when the backend finish call reports an error, the completion
handler delivers a normal Response to the exported Request with the fixed
generic failure code 2 and an empty results map, carrying no
backend-specific detail. -/
theorem backend_failure_generic_code_two :
    ∀ (request : Request), request.exported = true →
      get_idletime_done request BackendResult.err =
        some { code := 2, results := [] } := by
  intro request h
  simp [get_idletime_done, h]

/-- C5 witness: a failed backend call for the exported request yields
Response code 2 with empty results. -/
theorem backend_failure_generic_code_two_witness :
    get_idletime_done reqA BackendResult.err =
      some { code := 2, results := [] } :=
  backend_failure_generic_code_two reqA rfl

/-- C6 counterexample: app `com.example.A` with permission `Unset` calls
GetIdleTime and the backend returns 4200; the claim expects Response
code 0 with results containing "idleTime" mapped to 4200, but the code
emits the backend's value 4200 as the response code and an always-empty
results map (the vardict builder is ended without any entry). -/
theorem success_response_counterexample :
    (async_get_idletime storeAllUnset reqA backendConst4200).response =
      some { code := 4200, results := [] } ∧
    (async_get_idletime storeAllUnset reqA backendConst4200).response ≠
      some { code := 0, results := [("idleTime", 4200)] } :=
  ⟨rfl, by decide⟩

/-- C6 (amended): for every permitted GetIdleTime call whose Request is
exported and whose backend uniformly returns the idle-time value v, the
Response delivered has code v and an empty results map. -/
theorem success_response_code_is_idletime :
    ∀ (store : PermissionStore) (request : Request) (v : Nat),
      get_permission_sync store request.app_id PERMISSION_TABLE
        PERMISSION_ID ≠ Permission.no →
      request.exported = true →
      (async_get_idletime store request
        (fun _ => BackendResult.ok v)).response =
        some { code := v, results := [] } := by
  intro store request v hperm hexp
  simp only [get_permission_sync] at hperm
  rcases hp : store request.app_id PERMISSION_TABLE PERMISSION_ID with _ | _ | _
  · simp [async_get_idletime, handle_get_idletime_in_thread_func,
      get_idle_monitor_allowed, get_permission_sync, get_idletime_done,
      hp, hexp]
  · exact absurd hp hperm
  · simp [async_get_idletime, handle_get_idletime_in_thread_func,
      get_idle_monitor_allowed, get_permission_sync, get_idletime_done,
      hp, hexp]

/-- C6 witness: with permission unset and backend value 4200, the delivered
Response has code 4200 and empty results. -/
theorem success_response_code_is_idletime_witness :
    (async_get_idletime storeAllUnset reqA
      (fun _ => BackendResult.ok 4200)).response =
      some { code := 4200, results := [] } :=
  success_response_code_is_idletime storeAllUnset reqA 4200
    (by decide) rfl

/-- C7: the claim says an event for a watch id with no registered owner is
dropped with no delivery.  The code keeps no watch-to-owner mapping at all:
for watch id 7, which no client registered, `watch_fired_cb` still emits a
WatchFired signal, and with NULL destination (a broadcast), exactly what
the source's FIXME comments mark as missing.  This theorem evaluates the
code at the failing input. -/
theorem unknown_watch_still_broadcast :
    watch_fired_cb "session2" [VariantEntry.u "session-state" 7] =
      some { destination := none,
             object_path := "/org/freedesktop/portal/desktop",
             iface := "org.freedesktop.portal.IdleMonitor",
             signal_name := "WatchFired",
             watch_id := 7 } := rfl

/-- C8: the handler completes the call synchronously with the Request's
token, and that returned token is the same whatever the permission store or
the backend hold — the returning call path consults neither; the permission
check and the backend query live only in the deferred thread function. -/
theorem handle_get_idletime_returns_token_independently :
    ∀ (store store2 : PermissionStore) (request : Request)
      (backend backend2 : BackendCall → BackendResult),
      (handle_get_idletime store request backend).1 = request.id ∧
      (handle_get_idletime store request backend).1 =
        (handle_get_idletime store2 request backend2).1 := by
  intro store store2 request backend backend2
  exact ⟨rfl, rfl⟩

/-- C9: whenever service construction succeeds, the backend proxy's default
per-call timeout has been set to `G_MAXINT`, the maximum 32-bit signed
integer, an effectively unbounded value. -/
theorem create_sets_unbounded_timeout :
    ∀ (proxy_created : Bool) (s : IdleMonitorService),
      idle_monitor_create proxy_created = some s →
      s.impl_default_timeout = G_MAXINT ∧ G_MAXINT = 2 ^ 31 - 1 := by
  intro proxy_created s h
  cases proxy_created with
  | false => simp [idle_monitor_create] at h
  | true =>
      simp [idle_monitor_create] at h
      subst h
      exact ⟨rfl, by decide⟩

/-- C9 witness: successful construction yields the service state whose
proxy timeout is 2147483647. -/
theorem create_sets_unbounded_timeout_witness :
    ({ impl_default_timeout := 2147483647, watch_fired_connected := true,
       version := 3 } : IdleMonitorService).impl_default_timeout =
      G_MAXINT ∧ G_MAXINT = 2 ^ 31 - 1 :=
  create_sets_unbounded_timeout true
    { impl_default_timeout := 2147483647, watch_fired_connected := true,
      version := 3 } rfl

/-- C10: when the state vardict has no unsigned 32-bit entry under
"session-state" (the key is absent or has another type), the handler keeps
the watch id at its initial value 0 and still emits the broadcast
WatchFired signal carrying watch id 0 instead of dropping the event. -/
theorem malformed_state_emits_watch_id_zero :
    ∀ (session_id : String) (state : List VariantEntry),
      lookup_u state "session-state" = none →
      watch_fired_cb session_id state =
        some { destination := none,
               object_path := "/org/freedesktop/portal/desktop",
               iface := "org.freedesktop.portal.IdleMonitor",
               signal_name := "WatchFired",
               watch_id := 0 } := by
  intro session_id state h
  simp [watch_fired_cb, h]

/-- C10 witness: a state dictionary holding "session-state" with a
non-unsigned type yields the WatchFired signal with watch id 0. -/
theorem malformed_state_emits_watch_id_zero_witness :
    watch_fired_cb "session3" [VariantEntry.other "session-state"] =
      some { destination := none,
             object_path := "/org/freedesktop/portal/desktop",
             iface := "org.freedesktop.portal.IdleMonitor",
             signal_name := "WatchFired",
             watch_id := 0 } :=
  malformed_state_emits_watch_id_zero "session3"
    [VariantEntry.other "session-state"] (by decide)
